import Mathlib

/-!
Verification of the `leptos_cache` crate of `ifiokjr/leptoskit`.

This file shallowly embeds the cache data model and operations of
`src/crates/leptos_cache/src/{query_options,gc,query,cache,query_client}.rs`:

* instants (`chrono::DateTime<Utc>`) and durations (`std::time::Duration`)
  are both modelled as `Nat`, in seconds, with the source's constants
  (`DEFAULT_STALE_TIME = 10s`, `DEFAULT_GC_TIME = 300s`, arming threshold
  `60*60*24*365` seconds);
* `ArcRwSignal<u64>` change tokens ("busters") are modelled as cell
  identifiers (`Nat`) together with a valuation `cellVal : Nat → Nat` kept in
  the registry state; `random_u64_rolling` (a `fetch_add(1)` on a global
  `AtomicU64`) is modelled as a threaded counter;
* `HashMap`s are modelled as association lists;
* the async coordinator `ScopeLookup::cached_or_fetch_inner` is modelled both
  as a single-call run (its environment at each `await` point supplied as
  parameters) and, for the concurrency claim, as an interleaving transition
  system over several callers.
-/

set_option autoImplicit false

/-! ### query_options.rs -/

/-- Instants and durations, in seconds. -/
abbrev Time := Nat

/-- `DEFAULT_STALE_TIME: Duration = Duration::from_secs(10)`. -/
def DEFAULT_STALE_TIME : Nat := 10

/-- `DEFAULT_GC_TIME: Duration = Duration::from_secs(300)`. -/
def DEFAULT_GC_TIME : Nat := 300

/-- `QueryOptions`: optional stale/gc durations. -/
structure QueryOptions where
  staleTimeOpt : Option Nat
  gcTimeOpt : Option Nat
deriving Repr, DecidableEq

/-- `QueryOptions::stale_time()`: the explicit value or the default. -/
def QueryOptions.stale_time (o : QueryOptions) : Nat :=
  o.staleTimeOpt.getD DEFAULT_STALE_TIME

/-- `QueryOptions::gc_time()`: the explicit value or the default. -/
def QueryOptions.gc_time (o : QueryOptions) : Nat :=
  o.gcTimeOpt.getD DEFAULT_GC_TIME

/-- `options_combine(base, scope)`: per field, the scope's value if present,
else the base's. -/
def options_combine (base : QueryOptions) (scope : Option QueryOptions) :
    QueryOptions :=
  match scope with
  | some s =>
      { staleTimeOpt := s.staleTimeOpt.orElse fun _ => base.staleTimeOpt
        gcTimeOpt := s.gcTimeOpt.orElse fun _ => base.gcTimeOpt }
  | none => base

/-! ### gc.rs -/

/-- The arming threshold in `Query::new`: `Duration::from_secs(60*60*24*365)`. -/
def GC_NEVER_THRESHOLD : Nat := 60 * 60 * 24 * 365

/-- `GcHandle`: either the inert never-fires variant (`GcHandle::None`), or an
armed one-shot timer (`Wasm`/`Tokio` variants) that fires at the given instant
(arm time + duration). -/
inductive GcHandle where
  | none
  | armed (fireAt : Time)
deriving Repr, DecidableEq

/-- `GcHandle::new(gc_cb, duration)`: armed (scheduling the callback after
`duration`) when a callback is present, otherwise `GcHandle::None`.
`hasCb` models `gc_cb.is_some()`; `now` is the instant of the call. -/
def GcHandle.new (hasCb : Bool) (now : Time) (duration : Nat) : GcHandle :=
  if hasCb then .armed (now + duration) else .none

/-- `GcHandle::cancel()`: replaces the handle with `GcHandle::None`. -/
def GcHandle.cancel (_h : GcHandle) : GcHandle := .none

/-! ### query.rs -/

/-- `Query<V>`: one cache entry. `value_maybe_stale` holds the `GcValue`'s
inner value and `gc_handle` its timer; `gc_cb` records whether the
garbage-collection callback exists (`Option<Arc<...>>::is_some()`); `buster`
is the identifier of the entry's `ArcRwSignal<u64>` change-token cell. -/
structure Query (V : Type) where
  value_maybe_stale : V
  gc_handle : GcHandle
  combined_options : QueryOptions
  updated_at : Option Time
  gc_cb : Bool
  buster : Nat
deriving Repr, DecidableEq

/-- `Query::new`: combines the client options with the scope options, decides
whether a gc callback exists (`cfg!(any(test, not(feature = "ssr")))` — the
`cfgTestOrNotSsr` parameter — and `gc_time < 365 days`), arms the handle,
and stamps `updated_at` with the current instant. -/
def Query.new {V : Type} (clientOptions : QueryOptions)
    (scope_options : Option QueryOptions) (cfgTestOrNotSsr : Bool)
    (value : V) (buster : Nat) (now : Time) : Query V :=
  let combined := options_combine clientOptions scope_options
  let hasCb := cfgTestOrNotSsr && decide (combined.gc_time < GC_NEVER_THRESHOLD)
  { value_maybe_stale := value
    gc_handle := GcHandle.new hasCb now combined.gc_time
    combined_options := combined
    updated_at := some now
    gc_cb := hasCb
    buster := buster }

/-- `Query::invalidate()`: clears the freshness timestamp. -/
def Query.invalidate {V : Type} (q : Query V) : Query V :=
  { q with updated_at := none }

/-- `Query::stale()`: true when no freshness timestamp is recorded, or when
`now > updated_at + stale_time` (strict). -/
def Query.stale {V : Type} (q : Query V) (now : Time) : Bool :=
  match q.updated_at with
  | some u => decide (u + q.combined_options.stale_time < now)
  | Option.none => true

/-- `Query::set_value(new_value)`: replaces the value (dropping the old
`GcValue` cancels its timer), arms a fresh handle from the stored `gc_cb` and
the effective `gc_time`, and re-stamps `updated_at`. -/
def Query.set_value {V : Type} (q : Query V) (new_value : V) (now : Time) :
    Query V :=
  { q with
    value_maybe_stale := new_value
    gc_handle := GcHandle.new q.gc_cb now q.combined_options.gc_time
    updated_at := some now }

/-! ### cache.rs / query_client.rs — registry model

`HashMap`s are modelled as association lists with insert-replaces semantics.
-/

/-- `HashMap::get`. -/
def assocFind {K A : Type} [DecidableEq K] (k : K) : List (K × A) → Option A
  | [] => none
  | (k2, a) :: rest => if k = k2 then some a else assocFind k rest

/-- `HashMap::remove` (erases every binding of the key; a `HashMap` holds at
most one, so on key-unique lists this is exactly `remove`). -/
def assocErase {K A : Type} [DecidableEq K] (k : K) : List (K × A) → List (K × A)
  | [] => []
  | (k2, a) :: rest =>
      if k = k2 then assocErase k rest else (k2, a) :: assocErase k rest

/-- `HashMap::insert` (replaces any existing binding). -/
def assocInsert {K A : Type} [DecidableEq K] (k : K) (a : A)
    (l : List (K × A)) : List (K × A) :=
  (k, a) :: assocErase k l

/-- `Scope<K, V>`: the per-query-type cache plus the per-key dedup locks
(`fetcher_mutexes`, recorded by key only — the lock state lives in the run
models below). -/
structure Scope (K V : Type) where
  cache : List (K × Query V)
  fetcher_mutexes : List K
deriving Repr, DecidableEq

/-- `Scope::default()`. -/
def Scope.default (K V : Type) : Scope K V := { cache := [], fetcher_mutexes := [] }

/-- The mutable state behind `ScopeLookup` plus the change-token cells:
`scopes` is the type-erased registry (`TypeId` modelled as `Nat`, one (K, V)
shape since the claims stay within one typed view); `cellVal` gives the
current `u64` of each `ArcRwSignal` cell; `counter` is the global
`random_u64_rolling` counter. -/
structure CacheState (K V : Type) where
  scopes : List (Nat × Scope K V)
  cellVal : Nat → Nat
  counter : Nat

/-- `random_u64_rolling()`: `COUNTER.fetch_add(1)` — returns the previous
counter value and the incremented counter. -/
def random_u64_rolling (c : Nat) : Nat × Nat := (c, c + 1)

/-- `ScopeLookup::with_cached_query` composed with a plain lookup: the entry
for `(cache_key, key)`, if any (a pure read — it mutates nothing). -/
def lookupQuery {K V : Type} [DecidableEq K] (st : CacheState K V)
    (cache_key : Nat) (key : K) : Option (Query V) :=
  (assocFind cache_key st.scopes).bind fun sc => assocFind key sc.cache

/-- `QueryClient::get_cached_query`: `with_cached_query` mapping the entry to
a clone of its value. -/
def get_cached_query {K V : Type} [DecidableEq K] (st : CacheState K V)
    (cache_key : Nat) (key : K) : Option V :=
  (lookupQuery st cache_key key).map (·.value_maybe_stale)

/-- `QueryClient::query_exists`. -/
def query_exists {K V : Type} [DecidableEq K] (st : CacheState K V)
    (cache_key : Nat) (key : K) : Bool :=
  (lookupQuery st cache_key key).isSome

/-- `ScopeLookup::gc_query`: removes the `(cache_key, key)` entry if its scope
exists, and removes the whole scope from the registry when its cache became
empty. -/
def gc_query {K V : Type} [DecidableEq K] (st : CacheState K V)
    (cache_key : Nat) (key : K) : CacheState K V :=
  match assocFind cache_key st.scopes with
  | some sc =>
      let sc2 : Scope K V := { sc with cache := assocErase key sc.cache }
      if sc2.cache.isEmpty then
        { st with scopes := assocErase cache_key st.scopes }
      else
        { st with scopes := assocInsert cache_key sc2 st.scopes }
  | none => st

/-- `QueryClient::set_inner`: gets or creates the scope; an existing entry is
replaced via `Query::set_value` and its buster cell set to a fresh
`random_u64_rolling()`; otherwise a new entry is inserted with a freshly
minted `ArcRwSignal` (new cell, initial value `random_u64_rolling()`). -/
def set_inner {K V : Type} [DecidableEq K] (st : CacheState K V)
    (clientOptions : QueryOptions) (cfgTestOrNotSsr : Bool) (cache_key : Nat)
    (key : K) (new_value : V) (query_options : Option QueryOptions)
    (now : Time) : CacheState K V :=
  let sc := (assocFind cache_key st.scopes).getD (Scope.default K V)
  match assocFind key sc.cache with
  | some cached =>
      let (r, c2) := random_u64_rolling st.counter
      let cached2 := cached.set_value new_value now
      { st with
        scopes := assocInsert cache_key
          { sc with cache := assocInsert key cached2 sc.cache } st.scopes
        cellVal := fun i => if i = cached.buster then r else st.cellVal i
        counter := c2 }
  | none =>
      let (r, c2) := random_u64_rolling st.counter
      let q := Query.new clientOptions query_options cfgTestOrNotSsr
        new_value r now
      { st with
        scopes := assocInsert cache_key
          { sc with cache := assocInsert key q sc.cache } st.scopes
        cellVal := fun i => if i = r then r else st.cellVal i
        counter := c2 }

/-- `QueryClient::update_query_inner`: when the entry exists it is removed
(`remove_entry`, consuming the `GcValue` cancels its timer), the modifier is
applied to `Some(old value)`; a `Some` result re-creates the entry via
`Query::new` reusing the old buster cell, a `None` result leaves it removed
(the scope itself is NOT removed, even when its cache became empty); in both
branches the old buster cell is then set to a fresh `random_u64_rolling()`.
When no entry exists the modifier is applied to `None` and a `Some` result is
stored via `set_inner`. Returns the modifier's return value. -/
def update_query_inner {K V T : Type} [DecidableEq K] (st : CacheState K V)
    (clientOptions : QueryOptions) (cfgTestOrNotSsr : Bool) (cache_key : Nat)
    (key : K) (modifier : Option V → Option V × T)
    (query_options : Option QueryOptions) (now : Time) :
    CacheState K V × T :=
  let fallback : CacheState K V × T :=
    let (newOpt, ret) := modifier none
    match newOpt with
    | some nv =>
        (set_inner st clientOptions cfgTestOrNotSsr cache_key key nv
          query_options now, ret)
    | none => (st, ret)
  match assocFind cache_key st.scopes with
  | some sc =>
      match assocFind key sc.cache with
      | some cached =>
          let old := cached.value_maybe_stale
          let (newOpt, ret) := modifier (some old)
          let sc2 : Scope K V := { sc with cache := assocErase key sc.cache }
          let sc3 : Scope K V :=
            match newOpt with
            | some nv =>
                let q2 := Query.new clientOptions query_options cfgTestOrNotSsr
                  nv cached.buster now
                { sc2 with cache := assocInsert key q2 sc2.cache }
            | none => sc2
          let (r, c2) := random_u64_rolling st.counter
          ({ st with
             scopes := assocInsert cache_key sc3 st.scopes
             cellVal := fun i => if i = cached.buster then r else st.cellVal i
             counter := c2 }, ret)
      | none => fallback
  | none => fallback

/-- `QueryClient::invalidate_queries_inner`: for each requested key with an
entry, clear its freshness timestamp (`Query::invalidate`), set its buster
cell to a fresh `random_u64_rolling()`, and collect the key. Returns the new
state and the keys that existed. -/
def invalidate_queries_inner {K V : Type} [DecidableEq K] (st : CacheState K V)
    (cache_key : Nat) (keys : List K) : CacheState K V × List K :=
  match assocFind cache_key st.scopes with
  | none => (st, [])
  | some sc =>
      let step := fun (acc : Scope K V × (Nat → Nat) × Nat × List K) (key : K) =>
        let (sc, cv, cnt, inv) := acc
        match assocFind key sc.cache with
        | some cached =>
            let (r, cnt2) := random_u64_rolling cnt
            ({ sc with cache := assocInsert key cached.invalidate sc.cache },
             (fun i => if i = cached.buster then r else cv i), cnt2,
             inv ++ [key])
        | none => acc
      let (sc2, cv2, cnt2, inv) :=
        keys.foldl step (sc, st.cellVal, st.counter, [])
      ({ st with
         scopes := assocInsert cache_key sc2 st.scopes
         cellVal := cv2
         counter := cnt2 }, inv)

/-- `QueryClient::invalidate_query`: `invalidate_queries` on the single key;
returns whether the cleared list is non-empty. -/
def invalidate_query {K V : Type} [DecidableEq K] (st : CacheState K V)
    (cache_key : Nat) (key : K) : CacheState K V × Bool :=
  let (st2, inv) := invalidate_queries_inner st cache_key [key]
  (st2, !inv.isEmpty)

/-! ### cache.rs — `cached_or_fetch_inner`, single-call run model

The coordinator is async with two suspension points: awaiting a contended
`fetcher_mutex` and awaiting the user fetch function. A single call is
modelled as a function of its environment at those points: `lockWasFree` is
the outcome of `try_lock()`, `cacheAtRecheck` the cache content observed
after `lock().await` (contended case only), `fetchOutcome` the fetch result
(`Except.error` models a fetch failure — a panic unwinds past everything
after the `.await`, running only the mutex guard's drop). `mintId` is the
fresh cell created by `ArcRwSignal::new(random_u64_rolling())` when no token
is available. The effects of the synchronous tail are recorded as an ordered
event list, one event per source statement.
-/

/-- Observable effects of one coordinator run, in source order. -/
inductive CoordEvent where
  | lockAcquire
  | fetchCall
  | cacheWrite
  | busterRotate
  | lockRelease
deriving Repr, DecidableEq

/-- The outcome of one `cached_or_fetch_inner` call: the returned value (or
the propagated fetch failure), the entry written (if any), the rotated cell
(if `using_stale_buster`), the cells observed via `.track()`, and the ordered
effect log. -/
structure CoordRun (V E : Type) where
  result : Except E V
  writeQuery : Option (Query V)
  rotatedCell : Option Nat
  usingStaleBuster : Bool
  trackedCells : List Nat
  events : List CoordEvent
  lockHeldAtEnd : Bool
deriving Repr

/-- The tail of `cached_or_fetch_inner` once the dedup lock is held and no
early return happened: await the fetcher; on success choose
`next_buster = custom_next_buster.unwrap_or_else(mint)`, optionally track it,
write the entry via `Query::new` + `scope.cache.insert`, and if
`using_stale_buster` rotate the reused token afterwards; the guard drops at
the end. On a fetch failure the unwind drops the guard and nothing else
runs. -/
def coordAfterLock {V E : Type} (clientOptions : QueryOptions)
    (scope_options : Option QueryOptions) (cfgTestOrNotSsr : Bool)
    (custom : Option Nat) (usingStale : Bool) (track : Bool)
    (trackedSoFar : List Nat) (fetchOutcome : Except E V) (now : Time)
    (mintId : Nat) : CoordRun V E :=
  match fetchOutcome with
  | .error e =>
      { result := .error e
        writeQuery := none
        rotatedCell := none
        usingStaleBuster := usingStale
        trackedCells := trackedSoFar
        events := [.lockAcquire, .fetchCall, .lockRelease]
        lockHeldAtEnd := false }
  | .ok v =>
      let next_buster := custom.getD mintId
      let q := Query.new clientOptions scope_options cfgTestOrNotSsr v
        next_buster now
      { result := .ok v
        writeQuery := some q
        rotatedCell := if usingStale then some next_buster else none
        usingStaleBuster := usingStale
        trackedCells := trackedSoFar ++ (if track then [next_buster] else [])
        events := [.lockAcquire, .fetchCall, .cacheWrite]
          ++ (if usingStale then [.busterRotate] else []) ++ [.lockRelease]
        lockHeldAtEnd := false }

/-- `ScopeLookup::cached_or_fetch_inner`, one call. `try_lock()` succeeding
goes straight to the fetch. Otherwise, after `lock().await`, the cache is
re-checked: an existing non-stale entry is returned as-is (no fetch); an
existing stale entry is not returned, but its buster replaces
`custom_next_buster` and `using_stale_buster` is set; an absent entry falls
through to the fetch. -/
def cached_or_fetch_run {V E : Type} (clientOptions : QueryOptions)
    (scope_options : Option QueryOptions) (cfgTestOrNotSsr : Bool)
    (lockWasFree : Bool) (cacheAtRecheck : Option (Query V))
    (custom0 : Option Nat) (track : Bool) (fetchOutcome : Except E V)
    (now : Time) (mintId : Nat) : CoordRun V E :=
  if lockWasFree then
    coordAfterLock clientOptions scope_options cfgTestOrNotSsr custom0 false
      track [] fetchOutcome now mintId
  else
    match cacheAtRecheck with
    | some cached =>
        let tracked := if track then [cached.buster] else []
        if cached.stale now then
          coordAfterLock clientOptions scope_options cfgTestOrNotSsr
            (some cached.buster) true track tracked fetchOutcome now mintId
        else
          { result := .ok cached.value_maybe_stale
            writeQuery := none
            rotatedCell := none
            usingStaleBuster := false
            trackedCells := tracked
            events := [.lockAcquire, .lockRelease]
            lockHeldAtEnd := false }
    | none =>
        coordAfterLock clientOptions scope_options cfgTestOrNotSsr custom0
          false track [] fetchOutcome now mintId

/-- Applying a coordinator run's write (`scope.cache.insert(key, query)`) to
a scope cache; a run without a write leaves the cache as it was. -/
def applyCoordWrite {K V E : Type} [DecidableEq K]
    (cache : List (K × Query V)) (key : K) (run : CoordRun V E) :
    List (K × Query V) :=
  match run.writeQuery with
  | some q => assocInsert key q cache
  | none => cache

/-! ### query_client.rs — `prefetch_inner` and `fetch_inner` -/

/-- The `needs_prefetch` check of `QueryClient::prefetch_inner`: an existing
entry prefetches iff it is stale; an absent entry always prefetches. -/
def needs_prefetch {V : Type} (cached : Option (Query V)) (now : Time) : Bool :=
  match cached with
  | some c => c.stale now
  | none => true

/-- `QueryClient::prefetch_inner`: when `needs_prefetch` holds, run the
coordinator (with `custom_next_buster = None`, `track = false`, discarding
the value); otherwise do nothing at all — no lock, no fetch, no write. -/
def prefetch_run {V E : Type} (clientOptions : QueryOptions)
    (query_options : Option QueryOptions) (cfgTestOrNotSsr : Bool)
    (cached : Option (Query V)) (lockWasFree : Bool)
    (cacheAtRecheck : Option (Query V)) (fetchOutcome : Except E V)
    (now : Time) (mintId : Nat) : Option (CoordRun V E) :=
  if needs_prefetch cached now then
    some (cached_or_fetch_run clientOptions query_options cfgTestOrNotSsr
      lockWasFree cacheAtRecheck none false fetchOutcome now mintId)
  else
    none

/-- The synchronous cache check of `QueryClient::fetch_inner`: a stale entry
maps to `None`, a fresh one to its value; `fetch_inner` invokes the
coordinator (the upstream path) exactly when this is `none`. -/
def fetch_inner_cached {V : Type} (cached : Option (Query V)) (now : Time) :
    Option V :=
  match cached with
  | some c => if c.stale now then none else some c.value_maybe_stale
  | none => none

/-! ### gc.rs / query_client.rs — the GC timeline

A single entry observed through time. `fireIfDue` encodes the armed timer
calling `gc_query` (removing the entry) once its deadline has passed;
operations are the facade's synchronous accesses at given instants.
-/

/-- The armed GC timer firing: once `fireAt ≤ t` the callback has run
`ScopeLookup::gc_query`, removing the entry; an inert handle never fires. -/
def fireIfDue {V : Type} (e : Option (Query V)) (t : Time) : Option (Query V) :=
  match e with
  | some q =>
      match q.gc_handle with
      | .armed fireAt => if fireAt ≤ t then none else some q
      | .none => some q
  | none => none

/-- Facade operations on one entry used by the GC claims. -/
inductive GcOp (V : Type) where
  | create (v : V)
  | readOp
  | setValueOp (v : V)
deriving Repr, DecidableEq

/-- One operation at instant `t`, applied after any due timer has fired:
`create` is the first `set_inner`/coordinator write (a fresh `Query::new`);
`readOp` is `get_cached_query`'s `with_cached_query`, which mutates nothing;
`setValueOp` is `set_inner` on an existing entry (`Query::set_value`,
cancelling the old timer and arming a new one). -/
def applyGcOp {V : Type} (clientOptions : QueryOptions)
    (query_options : Option QueryOptions) (cfgTestOrNotSsr : Bool)
    (buster : Nat) (e : Option (Query V)) (t : Time) (op : GcOp V) :
    Option (Query V) :=
  match op with
  | .create v =>
      some (Query.new clientOptions query_options cfgTestOrNotSsr v buster t)
  | .readOp => e
  | .setValueOp v =>
      match e with
      | some q => some (q.set_value v t)
      | none => none

/-- Runs a time-ordered list of operations against one entry slot, firing the
due timer before each operation. -/
def runGcTimeline {V : Type} (clientOptions : QueryOptions)
    (query_options : Option QueryOptions) (cfgTestOrNotSsr : Bool)
    (buster : Nat) (ops : List (Time × GcOp V)) : Option (Query V) :=
  ops.foldl
    (fun e (p : Time × GcOp V) =>
      applyGcOp clientOptions query_options cfgTestOrNotSsr buster
        (fireIfDue e p.1) p.1 p.2)
    none

/-- `get_cached_query` at instant `t` against the timeline's final slot:
the due timer fires first, then the value (if any) is read. -/
def getCachedAt {V : Type} (e : Option (Query V)) (t : Time) : Option V :=
  (fireIfDue e t).map (·.value_maybe_stale)

/-! ### cache.rs — concurrent `fetch` calls on one missing key

`N` logical callers run `QueryClient::fetch_inner` for the same key against
one scope. Each caller's code between two `await` points is one atomic step
(the executor interleaves tasks only at `await`s):

* `hitStart`: `fetch_inner`'s synchronous cache check finds a fresh value and
  returns it without touching the lock;
* `tryLockFree` / `tryLockBusy`: the check found nothing, the coordinator is
  entered and `try_lock()` succeeds / is contended;
* `wakeHit` / `wakeMiss`: `lock().await` returned; the re-check finds a value
  (returned, guard dropped) or nothing (guard kept, proceed to fetch);
* `fetchDone`: the awaited fetch function returns `v`; the entry is written
  and the guard dropped.

Time is fixed for the duration of the burst, so an entry written during it
(`updated_at = now`) is never stale (`now > now + stale_time` is false); the
cache therefore only needs the value. `fetchCount` counts invocations of the
upstream fetch function. -/
inductive CallerPc (V : Type) where
  | start
  | waiting
  | fetching
  | done (v : V)
deriving Repr, DecidableEq

/-- Global state of the `N`-caller system: each caller's program point, the
per-key `fetcher_mutex`, the cache slot for the key, and the upstream call
count. -/
structure FetchSystem (n : Nat) (V : Type) where
  pc : Fin n → CallerPc V
  lockHeld : Bool
  cache : Option V
  fetchCount : Nat

/-- All callers about to run `fetch` for a key with no prior entry. -/
def FetchSystem.init (n : Nat) (V : Type) : FetchSystem n V :=
  { pc := fun _ => .start, lockHeld := false, cache := none, fetchCount := 0 }

/-- One interleaving step of the system; `v` is the value the upstream fetch
function produces for this key. -/
inductive FetchStep {n : Nat} {V : Type} (v : V) :
    FetchSystem n V → FetchSystem n V → Prop where
  | hitStart {s : FetchSystem n V} (i : Fin n) (w : V)
      (hpc : s.pc i = .start) (hc : s.cache = some w) :
      FetchStep v s { s with pc := Function.update s.pc i (.done w) }
  | tryLockFree {s : FetchSystem n V} (i : Fin n)
      (hpc : s.pc i = .start) (hc : s.cache = none) (hl : s.lockHeld = false) :
      FetchStep v s
        { s with pc := Function.update s.pc i .fetching, lockHeld := true }
  | tryLockBusy {s : FetchSystem n V} (i : Fin n)
      (hpc : s.pc i = .start) (hc : s.cache = none) (hl : s.lockHeld = true) :
      FetchStep v s { s with pc := Function.update s.pc i .waiting }
  | wakeHit {s : FetchSystem n V} (i : Fin n) (w : V)
      (hpc : s.pc i = .waiting) (hl : s.lockHeld = false)
      (hc : s.cache = some w) :
      FetchStep v s { s with pc := Function.update s.pc i (.done w) }
  | wakeMiss {s : FetchSystem n V} (i : Fin n)
      (hpc : s.pc i = .waiting) (hl : s.lockHeld = false)
      (hc : s.cache = none) :
      FetchStep v s
        { s with pc := Function.update s.pc i .fetching, lockHeld := true }
  | fetchDone {s : FetchSystem n V} (i : Fin n)
      (hpc : s.pc i = .fetching) :
      FetchStep v s
        { pc := Function.update s.pc i (.done v)
          lockHeld := false
          cache := some v
          fetchCount := s.fetchCount + 1 }

/-- States reachable from the all-`start` empty-cache initial state. -/
inductive FetchReach {n : Nat} {V : Type} (v : V) : FetchSystem n V → Prop where
  | init : FetchReach v (FetchSystem.init n V)
  | step {s t : FetchSystem n V} :
      FetchReach v s → FetchStep v s t → FetchReach v t

/-- Inductive invariant of the `N`-caller system. -/
structure FetchSysInv {n : Nat} {V : Type} (v : V) (s : FetchSystem n V) :
    Prop where
  cache_val : ∀ w, s.cache = some w → w = v
  count_cache : s.fetchCount = (if s.cache.isSome then 1 else 0)
  fetching_lock : ∀ i, s.pc i = .fetching → s.lockHeld = true ∧ s.cache = none
  fetching_uniq : ∀ i j, s.pc i = .fetching → s.pc j = .fetching → i = j
  lock_fetching : s.lockHeld = true → ∃ i, s.pc i = .fetching
  done_cache : ∀ i w, s.pc i = .done w → w = v ∧ s.cache = some v

/-- The initial state satisfies the invariant. -/
theorem fetchSysInv_init {n : Nat} {V : Type} (v : V) :
    FetchSysInv v (FetchSystem.init n V) := by
  refine ⟨?_, rfl, ?_, ?_, ?_, ?_⟩ <;> dsimp only [FetchSystem.init]
  · intro w hw; exact absurd hw (by simp)
  · intro i h; exact absurd h (by simp)
  · intro i j hi _; exact absurd hi (by simp)
  · intro h; exact absurd h (by simp)
  · intro i w h; exact absurd h (by simp)

/-- Every interleaving step preserves the invariant. -/
theorem fetchSysInv_step {n : Nat} {V : Type} {v : V}
    {s t : FetchSystem n V} (hs : FetchSysInv v s) (hstep : FetchStep v s t) :
    FetchSysInv v t := by
  cases hstep with
  | hitStart i w hpc hc =>
      refine ⟨?_, ?_, ?_, ?_, ?_, ?_⟩ <;> dsimp only
      · exact hs.cache_val
      · exact hs.count_cache
      · intro j hj
        by_cases hji : j = i
        · subst hji; rw [Function.update_same] at hj; exact absurd hj (by simp)
        · rw [Function.update_noteq hji] at hj; exact hs.fetching_lock j hj
      · intro j k hj hk
        by_cases hji : j = i
        · subst hji; rw [Function.update_same] at hj; exact absurd hj (by simp)
        · by_cases hki : k = i
          · subst hki; rw [Function.update_same] at hk
            exact absurd hk (by simp)
          · rw [Function.update_noteq hji] at hj
            rw [Function.update_noteq hki] at hk
            exact hs.fetching_uniq j k hj hk
      · intro hl
        obtain ⟨j, hj⟩ := hs.lock_fetching hl
        have hji : j ≠ i := by
          intro e; subst e; rw [hpc] at hj; exact absurd hj (by simp)
        exact ⟨j, by rw [Function.update_noteq hji]; exact hj⟩
      · intro j w2 hj
        by_cases hji : j = i
        · subst hji; rw [Function.update_same] at hj
          injection hj with hww
          refine ⟨?_, ?_⟩
          · rw [← hww]; exact hs.cache_val w hc
          · rw [← hs.cache_val w hc]; exact hc
        · rw [Function.update_noteq hji] at hj; exact hs.done_cache j w2 hj
  | tryLockFree i hpc hc hl =>
      refine ⟨?_, ?_, ?_, ?_, ?_, ?_⟩ <;> dsimp only
      · exact hs.cache_val
      · exact hs.count_cache
      · intro j hj
        by_cases hji : j = i
        · exact ⟨rfl, hc⟩
        · rw [Function.update_noteq hji] at hj
          exact absurd (hs.fetching_lock j hj).1 (by rw [hl]; simp)
      · intro j k hj hk
        by_cases hji : j = i
        · by_cases hki : k = i
          · rw [hji, hki]
          · rw [Function.update_noteq hki] at hk
            exact absurd (hs.fetching_lock k hk).1 (by rw [hl]; simp)
        · rw [Function.update_noteq hji] at hj
          exact absurd (hs.fetching_lock j hj).1 (by rw [hl]; simp)
      · intro _
        exact ⟨i, by rw [Function.update_same]⟩
      · intro j w hj
        by_cases hji : j = i
        · subst hji; rw [Function.update_same] at hj; exact absurd hj (by simp)
        · rw [Function.update_noteq hji] at hj
          have hd := hs.done_cache j w hj
          rw [hc] at hd
          exact absurd hd.2 (by simp)
  | tryLockBusy i hpc hc hl =>
      refine ⟨?_, ?_, ?_, ?_, ?_, ?_⟩ <;> dsimp only
      · exact hs.cache_val
      · exact hs.count_cache
      · intro j hj
        by_cases hji : j = i
        · subst hji; rw [Function.update_same] at hj; exact absurd hj (by simp)
        · rw [Function.update_noteq hji] at hj; exact hs.fetching_lock j hj
      · intro j k hj hk
        by_cases hji : j = i
        · subst hji; rw [Function.update_same] at hj; exact absurd hj (by simp)
        · by_cases hki : k = i
          · subst hki; rw [Function.update_same] at hk
            exact absurd hk (by simp)
          · rw [Function.update_noteq hji] at hj
            rw [Function.update_noteq hki] at hk
            exact hs.fetching_uniq j k hj hk
      · intro hlk
        obtain ⟨j, hj⟩ := hs.lock_fetching hlk
        have hji : j ≠ i := by
          intro e; subst e; rw [hpc] at hj; exact absurd hj (by simp)
        exact ⟨j, by rw [Function.update_noteq hji]; exact hj⟩
      · intro j w hj
        by_cases hji : j = i
        · subst hji; rw [Function.update_same] at hj; exact absurd hj (by simp)
        · rw [Function.update_noteq hji] at hj; exact hs.done_cache j w hj
  | wakeHit i w hpc hl hc =>
      refine ⟨?_, ?_, ?_, ?_, ?_, ?_⟩ <;> dsimp only
      · exact hs.cache_val
      · exact hs.count_cache
      · intro j hj
        by_cases hji : j = i
        · subst hji; rw [Function.update_same] at hj; exact absurd hj (by simp)
        · rw [Function.update_noteq hji] at hj; exact hs.fetching_lock j hj
      · intro j k hj hk
        by_cases hji : j = i
        · subst hji; rw [Function.update_same] at hj; exact absurd hj (by simp)
        · by_cases hki : k = i
          · subst hki; rw [Function.update_same] at hk
            exact absurd hk (by simp)
          · rw [Function.update_noteq hji] at hj
            rw [Function.update_noteq hki] at hk
            exact hs.fetching_uniq j k hj hk
      · intro hlk
        obtain ⟨j, hj⟩ := hs.lock_fetching hlk
        have hji : j ≠ i := by
          intro e; subst e; rw [hpc] at hj; exact absurd hj (by simp)
        exact ⟨j, by rw [Function.update_noteq hji]; exact hj⟩
      · intro j w2 hj
        by_cases hji : j = i
        · subst hji; rw [Function.update_same] at hj
          injection hj with hww
          refine ⟨?_, ?_⟩
          · rw [← hww]; exact hs.cache_val w hc
          · rw [← hs.cache_val w hc]; exact hc
        · rw [Function.update_noteq hji] at hj; exact hs.done_cache j w2 hj
  | wakeMiss i hpc hl hc =>
      refine ⟨?_, ?_, ?_, ?_, ?_, ?_⟩ <;> dsimp only
      · exact hs.cache_val
      · exact hs.count_cache
      · intro j hj
        by_cases hji : j = i
        · exact ⟨rfl, hc⟩
        · rw [Function.update_noteq hji] at hj
          exact absurd (hs.fetching_lock j hj).1 (by rw [hl]; simp)
      · intro j k hj hk
        by_cases hji : j = i
        · by_cases hki : k = i
          · rw [hji, hki]
          · rw [Function.update_noteq hki] at hk
            exact absurd (hs.fetching_lock k hk).1 (by rw [hl]; simp)
        · rw [Function.update_noteq hji] at hj
          exact absurd (hs.fetching_lock j hj).1 (by rw [hl]; simp)
      · intro _
        exact ⟨i, by rw [Function.update_same]⟩
      · intro j w hj
        by_cases hji : j = i
        · subst hji; rw [Function.update_same] at hj; exact absurd hj (by simp)
        · rw [Function.update_noteq hji] at hj
          have hd := hs.done_cache j w hj
          rw [hc] at hd
          exact absurd hd.2 (by simp)
  | fetchDone i hpc =>
      have hln := hs.fetching_lock i hpc
      have hcnt : s.fetchCount = 0 := by
        have h := hs.count_cache
        rw [hln.2] at h
        simpa using h
      refine ⟨?_, ?_, ?_, ?_, ?_, ?_⟩ <;> dsimp only
      · intro w hw
        injection hw with hw
        exact hw.symm
      · rw [hcnt]; simp
      · intro j hj
        by_cases hji : j = i
        · subst hji; rw [Function.update_same] at hj; exact absurd hj (by simp)
        · rw [Function.update_noteq hji] at hj
          exact absurd (hs.fetching_uniq j i hj hpc) hji
      · intro j k hj hk
        by_cases hji : j = i
        · subst hji; rw [Function.update_same] at hj; exact absurd hj (by simp)
        · rw [Function.update_noteq hji] at hj
          exact absurd (hs.fetching_uniq j i hj hpc) hji
      · intro h; exact absurd h (by simp)
      · intro j w hj
        by_cases hji : j = i
        · subst hji; rw [Function.update_same] at hj
          injection hj with hww
          subst hww
          exact ⟨rfl, rfl⟩
        · rw [Function.update_noteq hji] at hj
          have hd := hs.done_cache j w hj
          rw [hln.2] at hd
          exact absurd hd.2 (by simp)

/-- Every reachable state satisfies the invariant. -/
theorem fetchReach_inv {n : Nat} {V : Type} {v : V} {s : FetchSystem n V}
    (h : FetchReach v s) : FetchSysInv v s := by
  induction h with
  | init => exact fetchSysInv_init v
  | step _ hst ih => exact fetchSysInv_step ih hst

/-! ### Claim theorems -/

/-- C9: `Query::stale()` returns true if and only if the entry has no
freshness timestamp recorded, or the current time is strictly greater than
the timestamp plus the effective `stale_time`; in particular it is false
while `now` is at most `updated_at + stale_time` and true once strictly
past it. -/
theorem stale_characterisation {V : Type} (q : Query V) (now : Time) :
    (q.stale now = true ↔
      q.updated_at = none ∨
        ∃ u, q.updated_at = some u ∧
          u + q.combined_options.stale_time < now) ∧
    (∀ u, q.updated_at = some u →
      now ≤ u + q.combined_options.stale_time → q.stale now = false) ∧
    (∀ u, q.updated_at = some u →
      u + q.combined_options.stale_time < now → q.stale now = true) := by
  rcases hq : q.updated_at with _ | u <;> simp [Query.stale, hq]

/-- C9 witness: a freshly stamped entry (default 10s stale window, stamped at
100) reports stale at 111 and not at 110. -/
theorem stale_characterisation_witness :
    (Query.new (⟨none, none⟩ : QueryOptions) none true (7 : Nat) 0 100).stale
        111 = true ∧
    (Query.new (⟨none, none⟩ : QueryOptions) none true (7 : Nat) 0 100).stale
        110 = false := by
  constructor
  · exact (stale_characterisation
      (Query.new ⟨none, none⟩ none true 7 0 100) 111).2.2 100 rfl (by decide)
  · exact (stale_characterisation
      (Query.new ⟨none, none⟩ none true 7 0 100) 110).2.1 100 rfl (by decide)

/-- C10: an entry whose effective `gc_time` is at least 365 days, or created
in a non-test `ssr` context (`cfg!(any(test, not(feature = "ssr")))` false),
carries the inert never-fires `GcHandle::None`, keeps it across
`set_value`, and is never auto-evicted however long it stays idle. -/
theorem gc_handle_inert {V : Type} (copts : QueryOptions)
    (sopts : Option QueryOptions) (cfg : Bool) (v : V) (b : Nat) (now : Time)
    (h : GC_NEVER_THRESHOLD ≤ (options_combine copts sopts).gc_time ∨
      cfg = false) :
    (Query.new copts sopts cfg v b now).gc_handle = GcHandle.none ∧
    (Query.new copts sopts cfg v b now).gc_cb = false ∧
    (∀ v2 t2, ((Query.new copts sopts cfg v b now).set_value v2 t2).gc_handle
      = GcHandle.none) ∧
    (∀ t, fireIfDue (some (Query.new copts sopts cfg v b now)) t
      = some (Query.new copts sopts cfg v b now)) ∧
    (∀ t v2 t2,
      fireIfDue (some ((Query.new copts sopts cfg v b now).set_value v2 t2)) t
        = some ((Query.new copts sopts cfg v b now).set_value v2 t2)) := by
  have hcb : (cfg && decide ((options_combine copts sopts).gc_time
      < GC_NEVER_THRESHOLD)) = false := by
    rcases h with h | h
    · simp [Nat.not_lt.mpr h]
    · simp [h]
  refine ⟨?_, ?_, ?_, ?_, ?_⟩ <;>
    simp [Query.new, Query.set_value, GcHandle.new, fireIfDue, hcb]

/-- C10 witness: with `gc_time` set to exactly 365 days in a test context the
handle is inert and the entry survives any idle instant. -/
theorem gc_handle_inert_witness :
    (Query.new (⟨none, some GC_NEVER_THRESHOLD⟩ : QueryOptions) none true
      (7 : Nat) 0 0).gc_handle = GcHandle.none ∧
    fireIfDue (some (Query.new (⟨none, some GC_NEVER_THRESHOLD⟩ : QueryOptions)
      none true (7 : Nat) 0 0)) 999999999999 =
      some (Query.new (⟨none, some GC_NEVER_THRESHOLD⟩ : QueryOptions) none
        true (7 : Nat) 0 0) := by
  have h := gc_handle_inert (⟨none, some GC_NEVER_THRESHOLD⟩ : QueryOptions)
    none true (7 : Nat) 0 0 (Or.inl (by decide))
  exact ⟨h.1, h.2.2.2.1 999999999999⟩

/-- C6 (code bug): with the default options in a test/client context, an
entry created at 0 and merely read at 100 is still evicted at
`0 + gc_time = 300` — the read does not re-arm or cancel the timer (see the
`TODO` in query_client.rs), so `get_cached` at 350 is `none`, against the
claim that a read before `gc_time` elapses prevents the eviction. The parts
of the claim the code does satisfy also hold: an entry idle for `gc_time`
becomes absent, it is still present just before, and a replacement re-arms
the timer and prevents the eviction. -/
theorem gc_read_does_not_prevent_eviction :
    getCachedAt (runGcTimeline (⟨none, none⟩ : QueryOptions) none true 0
      [(0, GcOp.create (7 : Nat)), (100, GcOp.readOp)]) 350 = none ∧
    getCachedAt (runGcTimeline (⟨none, none⟩ : QueryOptions) none true 0
      [(0, GcOp.create (7 : Nat)), (100, GcOp.readOp)]) 250 = some 7 ∧
    getCachedAt (runGcTimeline (⟨none, none⟩ : QueryOptions) none true 0
      [(0, GcOp.create (7 : Nat))]) 301 = none ∧
    getCachedAt (runGcTimeline (⟨none, none⟩ : QueryOptions) none true 0
      [(0, GcOp.create (7 : Nat))]) 299 = some 7 ∧
    getCachedAt (runGcTimeline (⟨none, none⟩ : QueryOptions) none true 0
      [(0, GcOp.create (7 : Nat)), (100, GcOp.setValueOp 8)]) 350 = some 8 := by
  decide

/-- C3: for a key with no prior cache entry, however the `N ≥ 1` concurrent
`fetch` calls interleave, once every caller has finished the upstream fetch
function was invoked exactly once and every caller received the identical
resulting value. -/
theorem concurrent_fetch_once {n : Nat} {V : Type} (v : V)
    (s : FetchSystem n V) (hn : 0 < n) (hreach : FetchReach v s)
    (hdone : ∀ i, ∃ w, s.pc i = CallerPc.done w) :
    s.fetchCount = 1 ∧ ∀ i w, s.pc i = CallerPc.done w → w = v := by
  have inv := fetchReach_inv hreach
  obtain ⟨w, hw⟩ := hdone ⟨0, hn⟩
  have hc := (inv.done_cache _ _ hw).2
  refine ⟨?_, fun i w2 h2 => (inv.done_cache i w2 h2).1⟩
  rw [inv.count_cache, hc]
  rfl

/-- A concrete interleaving of two `fetch` callers on an empty slot: caller 0
wins `try_lock` and fetches, caller 1 contends, waits, and re-checks. -/
def fetchTrace0 : FetchSystem 2 Nat := FetchSystem.init 2 Nat

/-- Caller 0 after a successful `try_lock`. -/
def fetchTrace1 : FetchSystem 2 Nat :=
  { fetchTrace0 with
    pc := Function.update fetchTrace0.pc 0 CallerPc.fetching
    lockHeld := true }

/-- Caller 1 after a contended `try_lock`. -/
def fetchTrace2 : FetchSystem 2 Nat :=
  { fetchTrace1 with pc := Function.update fetchTrace1.pc 1 CallerPc.waiting }

/-- Caller 0's fetch returns 4; the entry is written, the guard dropped. -/
def fetchTrace3 : FetchSystem 2 Nat :=
  { pc := Function.update fetchTrace2.pc 0 (CallerPc.done 4)
    lockHeld := false
    cache := some 4
    fetchCount := fetchTrace2.fetchCount + 1 }

/-- Caller 1 wakes, re-checks the cache, and returns the cached 4. -/
def fetchTrace4 : FetchSystem 2 Nat :=
  { fetchTrace3 with pc := Function.update fetchTrace3.pc 1 (CallerPc.done 4) }

/-- C3 witness: the concrete two-caller interleaving reaches an all-done
state with one upstream call and both callers holding 4. -/
theorem concurrent_fetch_once_witness :
    fetchTrace4.fetchCount = 1 ∧
      ∀ i w, fetchTrace4.pc i = CallerPc.done w → w = 4 := by
  have h0 : FetchReach (4 : Nat) fetchTrace0 := .init
  have h1 : FetchReach (4 : Nat) fetchTrace1 :=
    .step h0 (.tryLockFree 0 rfl rfl rfl)
  have h2 : FetchReach (4 : Nat) fetchTrace2 :=
    .step h1 (.tryLockBusy 1 (by decide) rfl rfl)
  have h3 : FetchReach (4 : Nat) fetchTrace3 :=
    .step h2 (.fetchDone 0 (by decide))
  have h4 : FetchReach (4 : Nat) fetchTrace4 :=
    .step h3 (.wakeHit 1 4 (by decide) rfl rfl)
  exact concurrent_fetch_once 4 fetchTrace4 (by decide) h4 (by
    intro i
    fin_cases i
    · exact ⟨4, by decide⟩
    · exact ⟨4, by decide⟩)

/-! Case equations for `cached_or_fetch_run`, one per control-flow branch of
`cached_or_fetch_inner`. -/

/-- Uncontended: `try_lock()` succeeded, straight to the fetch. -/
theorem run_free {V E : Type} (copts : QueryOptions)
    (sopts : Option QueryOptions) (cfg : Bool) (cacheR : Option (Query V))
    (custom0 : Option Nat) (track : Bool) (fo : Except E V) (now : Time)
    (mintId : Nat) :
    cached_or_fetch_run copts sopts cfg true cacheR custom0 track fo now mintId
      = coordAfterLock copts sopts cfg custom0 false track [] fo now mintId :=
  rfl

/-- Contended, and the re-check found no entry. -/
theorem run_contended_none {V E : Type} (copts : QueryOptions)
    (sopts : Option QueryOptions) (cfg : Bool) (custom0 : Option Nat)
    (track : Bool) (fo : Except E V) (now : Time) (mintId : Nat) :
    cached_or_fetch_run copts sopts cfg false none custom0 track fo now mintId
      = coordAfterLock copts sopts cfg custom0 false track [] fo now mintId :=
  rfl

/-- Contended, and the re-check found a stale entry: its buster replaces any
externally supplied `custom_next_buster` and `using_stale_buster` is set. -/
theorem run_contended_stale {V E : Type} (copts : QueryOptions)
    (sopts : Option QueryOptions) (cfg : Bool) (c : Query V)
    (custom0 : Option Nat) (track : Bool) (fo : Except E V) (now : Time)
    (mintId : Nat) (hst : c.stale now = true) :
    cached_or_fetch_run copts sopts cfg false (some c) custom0 track fo now
        mintId
      = coordAfterLock copts sopts cfg (some c.buster) true track
          (if track then [c.buster] else []) fo now mintId := by
  simp [cached_or_fetch_run, hst]

/-- Contended, and the re-check found a fresh entry: it is returned as-is,
with no fetch and no write. -/
theorem run_contended_fresh {V E : Type} (copts : QueryOptions)
    (sopts : Option QueryOptions) (cfg : Bool) (c : Query V)
    (custom0 : Option Nat) (track : Bool) (fo : Except E V) (now : Time)
    (mintId : Nat) (hst : c.stale now = false) :
    cached_or_fetch_run copts sopts cfg false (some c) custom0 track fo now
        mintId
      = { result := Except.ok c.value_maybe_stale
          writeQuery := none
          rotatedCell := none
          usingStaleBuster := false
          trackedCells := if track then [c.buster] else []
          events := [CoordEvent.lockAcquire, CoordEvent.lockRelease]
          lockHeldAtEnd := false } := by
  simp [cached_or_fetch_run, hst]

/-- The no-notify-before-store property of one coordinator run: every
rotation event is strictly preceded by the cache-write event, a rotation only
happens in a run that wrote, and the rotated cell is exactly the written
entry's change token. -/
def CoordRun.rotateAfterWriteOk {V E : Type} (r : CoordRun V E) : Prop :=
  (∀ j : Fin r.events.length, r.events.get j = CoordEvent.busterRotate →
    ∃ i2 : Fin r.events.length, i2.val < j.val ∧
      r.events.get i2 = CoordEvent.cacheWrite) ∧
  (r.rotatedCell.isSome = true → r.writeQuery.isSome = true) ∧
  (r.rotatedCell.isSome = true →
    r.rotatedCell = r.writeQuery.map Query.buster)

/-- `coordAfterLock` rotates only after writing, whatever its inputs. -/
theorem coordAfterLock_rotateOk {V E : Type} (copts : QueryOptions)
    (sopts : Option QueryOptions) (cfg : Bool) (custom : Option Nat)
    (usingStale track : Bool) (tracked : List Nat) (fo : Except E V)
    (now : Time) (mintId : Nat) :
    (coordAfterLock copts sopts cfg custom usingStale track tracked fo now
      mintId).rotateAfterWriteOk := by
  rcases fo with e | v
  · refine ⟨?_, by simp [coordAfterLock], by simp [coordAfterLock]⟩
    rw [show (coordAfterLock copts sopts cfg custom usingStale track tracked
      (Except.error e) now mintId).events = [CoordEvent.lockAcquire,
      CoordEvent.fetchCall, CoordEvent.lockRelease] from rfl]
    decide
  · cases usingStale
    · refine ⟨?_, by simp [coordAfterLock], by simp [coordAfterLock]⟩
      rw [show (coordAfterLock copts sopts cfg custom false track tracked
        (Except.ok v) now mintId).events = [CoordEvent.lockAcquire,
        CoordEvent.fetchCall, CoordEvent.cacheWrite,
        CoordEvent.lockRelease] from rfl]
      decide
    · refine ⟨?_, by simp [coordAfterLock], ?_⟩
      · rw [show (coordAfterLock copts sopts cfg custom true track tracked
          (Except.ok v) now mintId).events = [CoordEvent.lockAcquire,
          CoordEvent.fetchCall, CoordEvent.cacheWrite,
          CoordEvent.busterRotate, CoordEvent.lockRelease] from rfl]
        decide
      · simp [coordAfterLock, Query.new]


/-- A run whose event log is the early-return `[acquire, release]` and which
rotated nothing trivially satisfies the no-notify-before-store property. -/
theorem rotateOk_of_early_return {V E : Type} (r : CoordRun V E)
    (h : r.events = [CoordEvent.lockAcquire, CoordEvent.lockRelease])
    (h2 : r.rotatedCell = none) : r.rotateAfterWriteOk := by
  refine ⟨?_, by simp [h2], by simp [h2]⟩
  rw [h]
  decide

/-- C4: in every coordinator run the reused token is rotated (firing the
subscriber notifications) only strictly after the new entry's cache write;
there is no point of any run at which subscribers have been notified but the
new value is not yet stored, and what is rotated is exactly the written
entry's token. -/
theorem rotate_after_write {V E : Type} (copts : QueryOptions)
    (sopts : Option QueryOptions) (cfg lockWasFree : Bool)
    (cacheR : Option (Query V)) (custom0 : Option Nat) (track : Bool)
    (fo : Except E V) (now : Time) (mintId : Nat) :
    (cached_or_fetch_run copts sopts cfg lockWasFree cacheR custom0 track fo
      now mintId).rotateAfterWriteOk := by
  cases lockWasFree
  · rcases cacheR with _ | c
    · rw [run_contended_none]; exact coordAfterLock_rotateOk _ _ _ _ _ _ _ _ _ _
    · rcases hst : c.stale now with _ | _
      · refine rotateOk_of_early_return _ ?_ ?_ <;>
          rw [run_contended_fresh copts sopts cfg c custom0 track fo now
            mintId hst]
      · rw [run_contended_stale copts sopts cfg c custom0 track fo now mintId
          hst]
        exact coordAfterLock_rotateOk _ _ _ _ _ _ _ _ _ _
  · rw [run_free]; exact coordAfterLock_rotateOk _ _ _ _ _ _ _ _ _ _

/-- The stale entry used by the C4 witness (forcibly invalidated, token cell
3). -/
def qStaleC4 : Query Nat :=
  { value_maybe_stale := 7, gc_handle := GcHandle.none,
    combined_options := ⟨none, none⟩, updated_at := none, gc_cb := false,
    buster := 3 }

/-- C4 witness: the contended stale-reuse run with a successful fetch
satisfies the no-notify-before-store property. -/
theorem rotate_after_write_witness :
    (cached_or_fetch_run (V := Nat) (E := Nat) (⟨none, none⟩ : QueryOptions)
      none true false (some qStaleC4) (some 5) false (Except.ok 9) 50
      11).rotateAfterWriteOk :=
  rotate_after_write (⟨none, none⟩ : QueryOptions) none true false
    (some qStaleC4) (some 5) false (Except.ok 9) 50 11

/-- C5: when the fetch function fails, the coordinator writes nothing — a
prior entry for the key (or any other key) is untouched by the run — the
dedup lock is still released, and whenever the fetch was actually invoked the
failure is the run's result, propagating to the initiating public call. -/
theorem fetch_failure_clean {K V E : Type} [DecidableEq K]
    (copts : QueryOptions) (sopts : Option QueryOptions)
    (cfg lockWasFree : Bool) (cacheR : Option (Query V))
    (custom0 : Option Nat) (track : Bool) (e : E) (now : Time) (mintId : Nat)
    (cache : List (K × Query V)) (key : K) :
    (cached_or_fetch_run copts sopts cfg lockWasFree cacheR custom0 track
      (Except.error e) now mintId).writeQuery = none ∧
    (cached_or_fetch_run copts sopts cfg lockWasFree cacheR custom0 track
      (Except.error e) now mintId).lockHeldAtEnd = false ∧
    CoordEvent.lockRelease ∈ (cached_or_fetch_run copts sopts cfg lockWasFree
      cacheR custom0 track (Except.error e) now mintId).events ∧
    applyCoordWrite cache key (cached_or_fetch_run copts sopts cfg lockWasFree
      cacheR custom0 track (Except.error e) now mintId) = cache ∧
    (CoordEvent.fetchCall ∈ (cached_or_fetch_run copts sopts cfg lockWasFree
        cacheR custom0 track (Except.error e) now mintId).events →
      (cached_or_fetch_run copts sopts cfg lockWasFree cacheR custom0 track
        (Except.error e) now mintId).result = Except.error e) := by
  cases lockWasFree
  · rcases cacheR with _ | c
    · rw [run_contended_none]
      exact ⟨rfl, rfl, by simp [coordAfterLock],
        by simp [applyCoordWrite, coordAfterLock], fun _ => rfl⟩
    · rcases hst : c.stale now with _ | _
      · rw [run_contended_fresh copts sopts cfg c custom0 track
          (Except.error e) now mintId hst]
        exact ⟨rfl, rfl, by simp, by simp [applyCoordWrite], by simp⟩
      · rw [run_contended_stale copts sopts cfg c custom0 track
          (Except.error e) now mintId hst]
        exact ⟨rfl, rfl, by simp [coordAfterLock],
          by simp [applyCoordWrite, coordAfterLock], fun _ => rfl⟩
  · rw [run_free]
    exact ⟨rfl, rfl, by simp [coordAfterLock],
      by simp [applyCoordWrite, coordAfterLock], fun _ => rfl⟩

/-- The prior entry (for an unrelated key) used by the C5 witness. -/
def qPriorC5 : Query Nat :=
  { value_maybe_stale := 7, gc_handle := GcHandle.none,
    combined_options := ⟨none, none⟩, updated_at := some 0, gc_cb := false,
    buster := 3 }

/-- C5 witness: a failing fetch on the uncontended path, with a prior entry
in the scope, leaves the cache untouched, releases the lock and propagates
the error. -/
theorem fetch_failure_clean_witness :
    (cached_or_fetch_run (V := Nat) (E := Nat) (⟨none, none⟩ : QueryOptions)
      none true true none none false (Except.error 3) 50 11).writeQuery
        = none ∧
    (cached_or_fetch_run (V := Nat) (E := Nat) (⟨none, none⟩ : QueryOptions)
      none true true none none false (Except.error 3) 50 11).lockHeldAtEnd
        = false ∧
    CoordEvent.lockRelease ∈ (cached_or_fetch_run (V := Nat) (E := Nat)
      (⟨none, none⟩ : QueryOptions) none true true none none false
      (Except.error 3) 50 11).events ∧
    applyCoordWrite [((2 : Nat), qPriorC5)] 2
      (cached_or_fetch_run (V := Nat) (E := Nat)
        (⟨none, none⟩ : QueryOptions) none true true none none false
        (Except.error 3) 50 11) = [((2 : Nat), qPriorC5)] ∧
    (CoordEvent.fetchCall ∈ (cached_or_fetch_run (V := Nat) (E := Nat)
        (⟨none, none⟩ : QueryOptions) none true true none none false
        (Except.error 3) 50 11).events →
      (cached_or_fetch_run (V := Nat) (E := Nat)
        (⟨none, none⟩ : QueryOptions) none true true none none false
        (Except.error 3) 50 11).result = Except.error 3) :=
  fetch_failure_clean (⟨none, none⟩ : QueryOptions) none true true none none
    false 3 50 11 [((2 : Nat), qPriorC5)] 2

/-- A forcibly-stale entry whose change-token cell is 7, for the C2
analysis. -/
def qStaleC2 : Query Nat :=
  { value_maybe_stale := 7, gc_handle := GcHandle.none,
    combined_options := ⟨none, none⟩, updated_at := none, gc_cb := false,
    buster := 7 }

/-- C2 counterexample: with an externally supplied token (cell 5) and a
contended re-check that finds a stale entry (token cell 7), the entry written
carries the stale entry's token 7, not the external token 5 — the stale
reuse overwrites `custom_next_buster` rather than deferring to it. -/
theorem external_token_overridden :
    ((cached_or_fetch_run (V := Nat) (E := Nat) (⟨none, none⟩ : QueryOptions)
      none true false (some qStaleC2) (some 5) false (Except.ok 9) 50
      11).writeQuery).map Query.buster = some 7 ∧ (7 : Nat) ≠ 5 := by
  decide

/-- C2 amended: the version token written with the new entry is the stale
entry's reused token whenever the contended re-check found a stale entry
(even if an external token was supplied); otherwise it is the externally
supplied token if one was given, and a freshly minted one only when neither
exists; a fresh (non-stale) re-check hit writes nothing at all. -/
theorem next_buster_priority {V E : Type} (copts : QueryOptions)
    (sopts : Option QueryOptions) (cfg : Bool) (cacheR : Option (Query V))
    (custom0 : Option Nat) (track : Bool) (v : V) (now : Time) (mintId : Nat) :
    ((cached_or_fetch_run copts sopts cfg true cacheR custom0 track
      (Except.ok v : Except E V) now mintId).writeQuery.map Query.buster
        = some (custom0.getD mintId)) ∧
    ((cached_or_fetch_run copts sopts cfg false none custom0 track
      (Except.ok v : Except E V) now mintId).writeQuery.map Query.buster
        = some (custom0.getD mintId)) ∧
    (∀ c, cacheR = some c → c.stale now = true →
      (cached_or_fetch_run copts sopts cfg false cacheR custom0 track
        (Except.ok v : Except E V) now mintId).writeQuery.map Query.buster
          = some c.buster) ∧
    (∀ c, cacheR = some c → c.stale now = false →
      (cached_or_fetch_run copts sopts cfg false cacheR custom0 track
        (Except.ok v : Except E V) now mintId).writeQuery = none) := by
  refine ⟨?_, ?_, ?_, ?_⟩
  · rw [run_free]; simp [coordAfterLock, Query.new]
  · rw [run_contended_none]; simp [coordAfterLock, Query.new]
  · intro c hc hst
    subst hc
    rw [run_contended_stale copts sopts cfg c custom0 track
      (Except.ok v : Except E V) now mintId hst]
    simp [coordAfterLock, Query.new]
  · intro c hc hst
    subst hc
    rw [run_contended_fresh copts sopts cfg c custom0 track
      (Except.ok v : Except E V) now mintId hst]

/-- C2 witness: with the stale re-check hit the written token is the stale
entry's cell 7; on the uncontended path the same external token 5 is the one
written. -/
theorem next_buster_priority_witness :
    ((cached_or_fetch_run (V := Nat) (E := Nat) (⟨none, none⟩ : QueryOptions)
      none true false (some qStaleC2) (some 5) false (Except.ok 9) 50
      11).writeQuery.map Query.buster = some qStaleC2.buster) ∧
    ((cached_or_fetch_run (V := Nat) (E := Nat) (⟨none, none⟩ : QueryOptions)
      none true true (some qStaleC2) (some 5) false (Except.ok 9) 50
      11).writeQuery.map Query.buster
        = some ((some 5 : Option Nat).getD 11)) :=
  ⟨(next_buster_priority (E := Nat) (⟨none, none⟩ : QueryOptions) none true
      (some qStaleC2) (some 5) false 9 50 11).2.2.1 qStaleC2 rfl (by decide),
   (next_buster_priority (E := Nat) (⟨none, none⟩ : QueryOptions) none true
      (some qStaleC2) (some 5) false 9 50 11).1⟩

/-- A forcibly-stale entry holding value 7, for the C1 analysis. -/
def qStaleC1 : Query Nat :=
  { value_maybe_stale := 7, gc_handle := GcHandle.none,
    combined_options := ⟨none, none⟩, updated_at := none, gc_cb := false,
    buster := 3 }

/-- C1 counterexample: on an existing stale entry `prefetch` does run the
coordinator — `needs_prefetch` is true, the run contains the fetch call, and
the cache item is replaced with the newly fetched 9 (the old value was 7) —
against the claim that an already-stale entry sees no fetch call and is left
unchanged. -/
theorem prefetch_refetches_stale :
    needs_prefetch (some qStaleC1) 50 = true ∧
    (prefetch_run (V := Nat) (E := Nat) (⟨none, none⟩ : QueryOptions) none
      true (some qStaleC1) true none (Except.ok 9) 50 11).map
        (fun r => (decide (CoordEvent.fetchCall ∈ r.events),
          r.writeQuery.map (·.value_maybe_stale))) = some (true, some 9) ∧
    qStaleC1.value_maybe_stale = 7 ∧ (9 : Nat) ≠ 7 := by
  decide

/-- C1 amended: `prefetch` fetch-and-stores exactly when the entry is absent
or stale: an existing fresh entry leads to no coordinator run at all (no
fetch, cache untouched), while an absent or stale entry leads to a run that
(uncontended, successful fetch) invokes the fetch and stores its result —
i.e. a stale entry is refreshed rather than skipped. -/
theorem prefetch_amended {V E : Type} (copts : QueryOptions)
    (qopts : Option QueryOptions) (cfg : Bool) (cached : Option (Query V))
    (lockWasFree : Bool) (cacheR : Option (Query V)) (fo : Except E V)
    (now : Time) (mintId : Nat) :
    (∀ c, cached = some c → c.stale now = false →
      prefetch_run copts qopts cfg cached lockWasFree cacheR fo now mintId
        = none) ∧
    (needs_prefetch cached now = true →
      ∀ v, fo = Except.ok v →
        ∃ r, prefetch_run copts qopts cfg cached true cacheR fo now mintId
            = some r ∧
          CoordEvent.fetchCall ∈ r.events ∧
          ∃ q, r.writeQuery = some q ∧ q.value_maybe_stale = v) ∧
    (needs_prefetch cached now = true ↔
      cached = none ∨ ∃ c, cached = some c ∧ c.stale now = true) := by
  refine ⟨?_, ?_, ?_⟩
  · intro c hc hst
    subst hc
    simp [prefetch_run, needs_prefetch, hst]
  · intro hnp v hv
    subst hv
    refine ⟨cached_or_fetch_run copts qopts cfg true cacheR none false
      (Except.ok v) now mintId, by simp [prefetch_run, hnp], ?_, ?_⟩
    · rw [run_free]; simp [coordAfterLock]
    · rw [run_free]
      exact ⟨Query.new copts qopts cfg v ((none : Option Nat).getD mintId)
        now, rfl, by simp [Query.new]⟩
  · rcases cached with _ | c <;> simp [needs_prefetch]

/-- A fresh (recently stamped) entry for the C1 witness. -/
def qFreshC1 : Query Nat :=
  { value_maybe_stale := 7, gc_handle := GcHandle.none,
    combined_options := ⟨none, none⟩, updated_at := some 100, gc_cb := false,
    buster := 3 }

/-- C1 witness: at 105 a fresh entry (stamped at 100, 10s window) triggers no
prefetch run, while an absent entry triggers a run that fetches and stores 9. -/
theorem prefetch_amended_witness :
    prefetch_run (V := Nat) (E := Nat) (⟨none, none⟩ : QueryOptions) none true
      (some qFreshC1) true none (Except.ok 9) 105 11 = none ∧
    (∃ r, prefetch_run (V := Nat) (E := Nat) (⟨none, none⟩ : QueryOptions)
        none true none true none (Except.ok 9) 105 11 = some r ∧
      CoordEvent.fetchCall ∈ r.events ∧
      ∃ q, r.writeQuery = some q ∧ q.value_maybe_stale = 9) :=
  ⟨(prefetch_amended (⟨none, none⟩ : QueryOptions) none true (some qFreshC1)
      true none (Except.ok 9) 105 11).1 qFreshC1 rfl (by decide),
   (prefetch_amended (⟨none, none⟩ : QueryOptions) none true none true none
      (Except.ok 9) 105 11).2.1 (by decide) 9 rfl⟩

/-- Looking up a key right after inserting it yields the inserted value. -/
theorem assocFind_insert_self {K A : Type} [DecidableEq K] (k : K) (a : A)
    (l : List (K × A)) : assocFind k (assocInsert k a l) = some a := by
  simp [assocInsert, assocFind]

/-- Looking up a key right after erasing it yields nothing. -/
theorem assocFind_erase_self {K A : Type} [DecidableEq K] (k : K)
    (l : List (K × A)) : assocFind k (assocErase k l) = none := by
  induction l with
  | nil => rfl
  | cons p rest ih =>
      obtain ⟨k2, a⟩ := p
      by_cases h : k = k2
      · subst h; simp [assocErase, ih]
      · simp [assocErase, assocFind, h, ih]

/-- C7 amended: a GC firing (`gc_query`) that removes the scope's last entry
removes the scope itself from the registry, and leaves it (minus the entry)
when other entries remain; but an `update_query` whose modifier returns
`None` removes only the entry and keeps the scope in the registry even when
its cache becomes empty — the "registry never retains an empty scope"
invariant holds for GC removals only. -/
theorem scope_removal {K V : Type} [DecidableEq K] (st : CacheState K V)
    (ck : Nat) (k : K) (sc : Scope K V)
    (hsc : assocFind ck st.scopes = some sc) :
    (assocErase k sc.cache = [] →
      assocFind ck (gc_query st ck k).scopes = none) ∧
    (assocErase k sc.cache ≠ [] →
      assocFind ck (gc_query st ck k).scopes
        = some { sc with cache := assocErase k sc.cache }) ∧
    (∀ (T : Type) (modifier : Option V → Option V × T) (cached : Query V),
      assocFind k sc.cache = some cached →
      (modifier (some cached.value_maybe_stale)).1 = none →
      ∀ copts cfg sopts now,
        assocFind ck ((update_query_inner st copts cfg ck k modifier sopts
            now).1.scopes)
          = some { sc with cache := assocErase k sc.cache }) := by
  refine ⟨?_, ?_, ?_⟩
  · intro hempty
    simp [gc_query, hsc, hempty, assocFind_erase_self]
  · intro hne
    have : (assocErase k sc.cache).isEmpty = false := by
      cases h : assocErase k sc.cache with
      | nil => exact absurd h hne
      | cons a b => rfl
    simp [gc_query, hsc, this, assocFind_insert_self]
  · intro T modifier cached hq hmod copts cfg sopts now
    rcases hm : modifier (some cached.value_maybe_stale) with ⟨newOpt, ret⟩
    rw [hm] at hmod
    dsimp only at hmod
    subst hmod
    simp [update_query_inner, hsc, hq, hm, assocFind_insert_self]

/-- The single entry of the scope used for the C7 counterexample. -/
def qC7 : Query Nat :=
  { value_maybe_stale := 7, gc_handle := GcHandle.none,
    combined_options := ⟨none, none⟩, updated_at := some 0, gc_cb := false,
    buster := 3 }

/-- The one-entry scope used for the C7 counterexample. -/
def stC7Scope : Scope Nat Nat := { cache := [(5, qC7)], fetcher_mutexes := [] }

/-- A registry holding one scope (cache key 1) with one entry (key 5). -/
def stC7 : CacheState Nat Nat :=
  { scopes := [(1, stC7Scope)]
    cellVal := fun _ => 0
    counter := 10 }

/-- C7 counterexample: removing the scope's last entry through
`update_query` with a `None`-returning modifier leaves the now-empty scope in
the registry — the registry does retain an empty scope. -/
theorem empty_scope_retained :
    assocFind 1 ((update_query_inner stC7 ⟨none, none⟩ true 1 5
        (fun _ => (none, ())) none 50).1).scopes
      = some { cache := [], fetcher_mutexes := [] } ∧
    lookupQuery ((update_query_inner stC7 ⟨none, none⟩ true 1 5
        (fun _ => (none, ())) none 50).1) 1 5 = none := by
  decide

/-- C7 witness: `gc_query` on the same one-entry scope removes the scope
from the registry, and on a two-entry scope keeps it with the other entry. -/
theorem scope_removal_witness :
    assocFind 1 (gc_query stC7 1 5).scopes = none ∧
    assocFind 1 ((update_query_inner stC7 ⟨none, none⟩ true 1 5
        (fun _ => (none, ())) none 50).1).scopes
      = some { cache := assocErase 5 stC7Scope.cache, fetcher_mutexes := [] } :=
  ⟨(scope_removal stC7 1 5 stC7Scope rfl).1 rfl,
   (scope_removal stC7 1 5 stC7Scope rfl).2.2 Unit (fun _ => (none, ())) qC7
     rfl rfl ⟨none, none⟩ true none 50⟩

/-- C8: `invalidate_query` on an existing entry returns true, leaves the
stored value unchanged in `get_cached_query`, clears the freshness timestamp
so the entry is stale at every instant — hence the next `fetch` finds no
usable cached value and triggers a new upstream call — and sets the entry's
change-token cell to the freshly minted counter value (rotating it whenever
that mint differs from the old cell value); on a key with no entry it
returns false. -/
theorem invalidate_one_spec {K V : Type} [DecidableEq K] (st : CacheState K V)
    (ck : Nat) (k : K) (sc : Scope K V) (q : Query V)
    (hsc : assocFind ck st.scopes = some sc)
    (hq : assocFind k sc.cache = some q) :
    (invalidate_query st ck k).2 = true ∧
    get_cached_query (invalidate_query st ck k).1 ck k
      = some q.value_maybe_stale ∧
    (∀ t, (lookupQuery (invalidate_query st ck k).1 ck k).map
      (fun c => c.stale t) = some true) ∧
    (∀ t, fetch_inner_cached (lookupQuery (invalidate_query st ck k).1 ck k) t
      = none) ∧
    (invalidate_query st ck k).1.cellVal q.buster = st.counter ∧
    (st.cellVal q.buster ≠ st.counter →
      (invalidate_query st ck k).1.cellVal q.buster ≠ st.cellVal q.buster) ∧
    (∀ (st2 : CacheState K V) (k2 : K), lookupQuery st2 ck k2 = none →
      (invalidate_query st2 ck k2).2 = false) := by
  have key : invalidate_queries_inner st ck [k]
      = ({ scopes := assocInsert ck
             { sc with cache := assocInsert k q.invalidate sc.cache }
             st.scopes
           cellVal := fun i => if i = q.buster then st.counter
             else st.cellVal i
           counter := st.counter + 1 }, [k]) := by
    simp [invalidate_queries_inner, hsc, hq, random_u64_rolling]
  refine ⟨?_, ?_, ?_, ?_, ?_, ?_, ?_⟩
  · simp [invalidate_query, key]
  · simp [invalidate_query, key, get_cached_query, lookupQuery,
      assocFind_insert_self, Query.invalidate]
  · intro t
    simp [invalidate_query, key, lookupQuery, assocFind_insert_self,
      Query.invalidate, Query.stale]
  · intro t
    simp [invalidate_query, key, lookupQuery, assocFind_insert_self,
      fetch_inner_cached, Query.invalidate, Query.stale]
  · simp [invalidate_query, key]
  · intro hne
    simp [invalidate_query, key]
    exact fun h => hne h.symm
  · intro st2 k2 hnone
    rcases hsc2 : assocFind ck st2.scopes with _ | sc2
    · simp [invalidate_query, invalidate_queries_inner, hsc2]
    · simp only [lookupQuery, hsc2, Option.some_bind] at hnone
      simp [invalidate_query, invalidate_queries_inner, hsc2, hnone]

/-- The entry used for the C8 witness. -/
def qC8 : Query Nat :=
  { value_maybe_stale := 7, gc_handle := GcHandle.none,
    combined_options := ⟨none, none⟩, updated_at := some 0, gc_cb := false,
    buster := 3 }

/-- The one-entry scope used for the C8 witness. -/
def stC8Scope : Scope Nat Nat := { cache := [(5, qC8)], fetcher_mutexes := [] }

/-- A registry for the C8 witness: one scope (cache key 1), one entry (key
5), counter at 10, all cells at 0. -/
def stC8 : CacheState Nat Nat :=
  { scopes := [(1, stC8Scope)]
    cellVal := fun _ => 0
    counter := 10 }

/-- C8 witness: invalidating key 5 returns true, keeps value 7 readable,
makes the entry stale at (for instance) instant 1, routes the next fetch
upstream, and rotates cell 3 from 0 to 10; invalidating the absent key 6
returns false. -/
theorem invalidate_one_spec_witness :
    (invalidate_query stC8 1 5).2 = true ∧
    get_cached_query (invalidate_query stC8 1 5).1 1 5
      = some qC8.value_maybe_stale ∧
    (lookupQuery (invalidate_query stC8 1 5).1 1 5).map
      (fun c => c.stale 1) = some true ∧
    fetch_inner_cached (lookupQuery (invalidate_query stC8 1 5).1 1 5) 1
      = none ∧
    (invalidate_query stC8 1 5).1.cellVal qC8.buster = stC8.counter ∧
    (invalidate_query stC8 1 5).1.cellVal qC8.buster ≠ stC8.cellVal qC8.buster ∧
    (invalidate_query stC8 1 6).2 = false := by
  have h := invalidate_one_spec stC8 1 5 stC8Scope qC8 rfl rfl
  exact ⟨h.1, h.2.1, h.2.2.1 1, h.2.2.2.1 1, h.2.2.2.2.1,
    h.2.2.2.2.2.1 (by decide), h.2.2.2.2.2.2 stC8 6 (by decide)⟩
